import Mathlib

/-
Verification of the FIFA player-statistics dashboard (src/fifa_dashboard.py)
against its specification (spec.md).

The dashboard is a sequence of read-only SQL aggregation queries over a single
`players` table, plus a pandas post-processing step for the club talent index.
We embed the table as a `List Player`, each SQL query as a Lean function on
that list (WHERE = filter, ORDER BY ... DESC = a deterministic descending
insertion sort, LIMIT = take, OFFSET = drop, GROUP BY Club = grouping over the
deduplicated club names), and SQL numeric aggregates over exact rationals
(AVG = sum/length in ℚ, ROUND(x, d) = half-away-from-zero rounding at d
decimal digits, as SQLite's ROUND does).  SQLite's ORDER BY leaves the order
of tie rows unspecified; the stable insertion sort fixes one admissible order.
-/

namespace FifaDashboard

/-- A row of the `players` table (only the columns the verified queries read). -/
structure Player where
  Name : String
  Age : ℤ
  Nationality : String
  Overall : ℤ
  Potential : ℤ
  Club : String
  Position : String
deriving DecidableEq, Repr

/-! ### ORDER BY ... DESC, LIMIT, OFFSET -/

/-- Descending sort by a key: the model of `ORDER BY key DESC`. -/
def sortDescBy {α β : Type} [LinearOrder β] (key : α → β) (l : List α) : List α :=
  l.insertionSort (fun a b => key b ≤ key a)

/-- A list is in descending order of `key`. -/
def DescendingBy {α β : Type} [LinearOrder β] (key : α → β) (l : List α) : Prop :=
  List.Sorted (fun a b => key b ≤ key a) l

theorem sortDescBy_sorted {α β : Type} [LinearOrder β] (key : α → β) (l : List α) :
    DescendingBy key (sortDescBy key l) := by
  haveI ht : IsTotal α (fun a b => key b ≤ key a) := ⟨fun a b => le_total (key b) (key a)⟩
  haveI htr : IsTrans α (fun a b => key b ≤ key a) := ⟨fun _ _ _ hab hbc => le_trans hbc hab⟩
  exact List.sorted_insertionSort _ l

theorem sortDescBy_perm {α β : Type} [LinearOrder β] (key : α → β) (l : List α) :
    List.Perm (sortDescBy key l) l :=
  List.perm_insertionSort _ l

theorem mem_sortDescBy {α β : Type} [LinearOrder β] {key : α → β} {l : List α} {x : α} :
    x ∈ sortDescBy key l ↔ x ∈ l :=
  List.mem_insertionSort _

theorem length_sortDescBy {α β : Type} [LinearOrder β] (key : α → β) (l : List α) :
    (sortDescBy key l).length = l.length :=
  (sortDescBy_perm key l).length_eq

theorem DescendingBy.sublist {α β : Type} [LinearOrder β] {key : α → β} {l l' : List α}
    (hs : List.Sublist l' l) (h : DescendingBy key l) : DescendingBy key l' :=
  List.Pairwise.sublist hs h

theorem descendingBy_take {α β : Type} [LinearOrder β] {key : α → β} {l : List α}
    (h : DescendingBy key l) (n : ℕ) : DescendingBy key (l.take n) :=
  h.sublist (List.take_sublist n l)

theorem mem_of_mem_take' {α : Type} {l : List α} {n : ℕ} {x : α}
    (h : x ∈ l.take n) : x ∈ l :=
  (List.take_sublist n l).subset h

/-- The head of a descending sort has the largest key in the list. -/
theorem sortDescBy_head_max {α β : Type} [LinearOrder β] {key : α → β} {l : List α}
    {a : α} {rest : List α} (h : sortDescBy key l = a :: rest) :
    ∀ q ∈ l, key q ≤ key a := by
  intro q hq
  have hq' : q ∈ a :: rest := by
    rw [← h]
    exact mem_sortDescBy.mpr hq
  rcases List.mem_cons.mp hq' with rfl | hmem
  · exact le_refl _
  · have hs := sortDescBy_sorted key l
    rw [h] at hs
    exact (List.sorted_cons.mp hs).1 q hmem

/-! ### C1: the sidebar filter clause and the player-count KPI -/

/-- The sidebar filter selections (two range sliders and two dropdowns,
src/fifa_dashboard.py lines 48-66). -/
structure FilterSelection where
  min_rating : ℤ
  max_rating : ℤ
  min_age : ℤ
  max_age : ℤ
  position : String
  club : String

/-- The WHERE clause built at src/fifa_dashboard.py:68-73:
`Overall BETWEEN min AND max AND Age BETWEEN min AND max`, with
`AND Position = sel` appended when the position dropdown is not "All" and
`AND Club = sel` appended when the club dropdown is not "All".
SQL BETWEEN is inclusive on both bounds. -/
def filter_clause (f : FilterSelection) (p : Player) : Bool :=
  (decide (f.min_rating ≤ p.Overall) && decide (p.Overall ≤ f.max_rating)
    && (decide (f.min_age ≤ p.Age) && decide (p.Age ≤ f.max_age)))
  && (if f.position ≠ "All" then p.Position == f.position else true)
  && (if f.club ≠ "All" then p.Club == f.club else true)

/-- The Total Players KPI query `SELECT COUNT(*) FROM players {filter_clause}`
(src/fifa_dashboard.py:80). -/
def countMatching (f : FilterSelection) (db : List Player) : ℕ :=
  (db.filter (filter_clause f)).length

/-- The constraint set described by the spec for a filter selection: inclusive
rating range, inclusive age range, and equality on position/club unless the
dropdown is "All" (AND semantics). -/
def specMatches (f : FilterSelection) (p : Player) : Prop :=
  (f.min_rating ≤ p.Overall ∧ p.Overall ≤ f.max_rating) ∧
  (f.min_age ≤ p.Age ∧ p.Age ≤ f.max_age) ∧
  (f.position ≠ "All" → p.Position = f.position) ∧
  (f.club ≠ "All" → p.Club = f.club)

instance (f : FilterSelection) (p : Player) : Decidable (specMatches f p) := by
  unfold specMatches
  infer_instance

theorem filter_clause_iff (f : FilterSelection) (p : Player) :
    filter_clause f p = true ↔ specMatches f p := by
  by_cases hp : f.position = "All" <;> by_cases hc : f.club = "All" <;>
    simp [filter_clause, specMatches, hp, hc, and_assoc]

/-- C1: for every valid filter selection (rating range within [0,100], age
range within [16,45]), the player count computed by the KPI query equals the
number of rows satisfying the inclusive rating range, the inclusive age range,
and, when not "All", equality on Position and Club, with AND semantics; "All"
imposes no constraint. -/
theorem countMatching_eq_spec_count (f : FilterSelection) (db : List Player)
    (h1 : 0 ≤ f.min_rating) (h2 : f.max_rating ≤ 100)
    (h3 : 16 ≤ f.min_age) (h4 : f.max_age ≤ 45) :
    countMatching f db = db.countP (fun p => decide (specMatches f p)) := by
  unfold countMatching
  rw [← List.countP_eq_length_filter]
  apply List.countP_congr
  intro p _
  simp only [decide_eq_true_eq]
  exact filter_clause_iff f p

def samplePlayers : List Player :=
  [⟨"L. Messi", 31, "Argentina", 94, 94, "FC Barcelona", "RW"⟩,
   ⟨"Cristiano Ronaldo", 33, "Portugal", 94, 94, "Juventus", "ST"⟩,
   ⟨"K. De Bruyne", 27, "Belgium", 91, 92, "Manchester City", "CM"⟩,
   ⟨"Young Kid", 17, "England", 60, 85, "FC Barcelona", "CM"⟩,
   ⟨"Old Keeper", 40, "Italy", 70, 70, "Juventus", "GK"⟩]

def sampleFilter : FilterSelection :=
  { min_rating := 80, max_rating := 100, min_age := 18, max_age := 35,
    position := "All", club := "All" }

/-- C1 witness: the theorem applied at a concrete valid filter and table. -/
theorem countMatching_eq_spec_count_witness :
    (0 ≤ sampleFilter.min_rating ∧ sampleFilter.max_rating ≤ 100 ∧
      16 ≤ sampleFilter.min_age ∧ sampleFilter.max_age ≤ 45) ∧
    countMatching sampleFilter samplePlayers =
      (samplePlayers.countP (fun p => decide (specMatches sampleFilter p))) :=
  ⟨by decide,
   countMatching_eq_spec_count sampleFilter samplePlayers
     (by decide) (by decide) (by decide) (by decide)⟩

/-! ### C2 and C9: Best XI slot queries (src/fifa_dashboard.py:205-215) -/

/-- The candidate set of a Best XI slot:
`SELECT ... FROM players WHERE Position IN posSet`. -/
def slotCandidates (posSet : List String) (db : List Player) : List Player :=
  db.filter (fun p => posSet.contains p.Position)

/-- A Best XI slot query:
`SELECT ... WHERE Position IN posSet ORDER BY Overall DESC LIMIT 1 OFFSET off`. -/
def slotQuery (posSet : List String) (off : ℕ) (db : List Player) : List Player :=
  ((sortDescBy (fun p => p.Overall) (slotCandidates posSet db)).drop off).take 1

def gk (db : List Player) : List Player := slotQuery ["GK"] 0 db

def lb (db : List Player) : List Player := slotQuery ["LB", "LWB"] 0 db

def cb1 (db : List Player) : List Player := slotQuery ["CB"] 0 db

def cb2 (db : List Player) : List Player := slotQuery ["CB"] 1 db

def rb (db : List Player) : List Player := slotQuery ["RB", "RWB"] 0 db

def cm1 (db : List Player) : List Player := slotQuery ["CM", "CDM"] 0 db

def cm2 (db : List Player) : List Player := slotQuery ["CM", "CAM"] 0 db

def cm3 (db : List Player) : List Player := slotQuery ["CM", "CDM", "CAM"] 1 db

def lw (db : List Player) : List Player := slotQuery ["LW", "LM"] 0 db

def striker (db : List Player) : List Player := slotQuery ["ST", "CF"] 0 db

def rw (db : List Player) : List Player := slotQuery ["RW", "RM"] 0 db

/-- The property the spec asserts of every slot: the slot is empty exactly when
no player matches the slot's position set, and otherwise holds a single player
of maximum Overall among the matching players. -/
def MaxSlot (posSet : List String) (db : List Player) (slot : List Player) : Prop :=
  (slot = [] ∧ slotCandidates posSet db = []) ∨
  (∃ a, slot = [a] ∧ a ∈ slotCandidates posSet db ∧
    ∀ q ∈ slotCandidates posSet db, q.Overall ≤ a.Overall)

theorem slotQuery_zero_max (posSet : List String) (db : List Player) :
    MaxSlot posSet db (slotQuery posSet 0 db) := by
  unfold MaxSlot slotQuery
  cases hs : sortDescBy (fun p => p.Overall) (slotCandidates posSet db) with
  | nil =>
    left
    refine ⟨by simp, ?_⟩
    have := length_sortDescBy (fun p : Player => p.Overall) (slotCandidates posSet db)
    rw [hs] at this
    exact List.length_eq_zero.mp this.symm
  | cons a rest =>
    right
    refine ⟨a, by simp, ?_, sortDescBy_head_max hs⟩
    have : a ∈ sortDescBy (fun p : Player => p.Overall) (slotCandidates posSet db) := by
      rw [hs]; exact List.mem_cons_self a rest
    exact mem_sortDescBy.mp this

/-- The spec's two-player example: the ST slot resolves to "A". -/
def stExample : List Player :=
  [⟨"A", 25, "X", 90, 90, "C1", "ST"⟩, ⟨"B", 25, "X", 85, 85, "C2", "CF"⟩]

/-- Table with two centre-backs of ratings 90 and 85, used to exhibit the
behaviour of the OFFSET 1 slot queries. -/
def cbA : Player := ⟨"A", 25, "X", 90, 90, "C1", "CB"⟩

def cbB : Player := ⟨"B", 25, "X", 85, 85, "C2", "CB"⟩

def cbExample : List Player := [cbA, cbB]

/-- C2 counterexample: on a table with two CBs rated 90 and 85, the second CB
slot (`... ORDER BY Overall DESC LIMIT 1 OFFSET 1`) is non-empty but does not
hold a maximum-overall candidate, refuting the claim that every one of the 11
slots is empty-or-maximum. -/
theorem cb2_not_maxSlot : ¬ MaxSlot ["CB"] cbExample (cb2 cbExample) := by
  intro h
  have hval : cb2 cbExample = [cbB] := by decide
  rcases h with ⟨h1, _⟩ | ⟨a, ha, _, hmax⟩
  · rw [hval] at h1
    cases h1
  · rw [hval] at ha
    have haB : a = cbB := (List.cons.injEq _ _ _ _ ▸ ha).1.symm
    have hA : cbA ∈ slotCandidates ["CB"] cbExample := by decide
    have := hmax cbA hA
    rw [haB] at this
    exact absurd this (by decide)

/-- C2 (amended): each of the nine Best XI slots queried without OFFSET
(GK, LB, CB1, RB, CM1, CM2, LW, ST, RW) is either empty (exactly when no
player matches the slot's position set) or holds a single maximum-overall
player among the matching players, and on the spec's example table the ST
slot resolves to "A".  (The CB2 and CM3 slots use OFFSET 1 and instead select
the second row of the descending-overall order; see the C9 theorem.) -/
theorem bestXI_slots_max (db : List Player) :
    MaxSlot ["GK"] db (gk db) ∧
    MaxSlot ["LB", "LWB"] db (lb db) ∧
    MaxSlot ["CB"] db (cb1 db) ∧
    MaxSlot ["RB", "RWB"] db (rb db) ∧
    MaxSlot ["CM", "CDM"] db (cm1 db) ∧
    MaxSlot ["CM", "CAM"] db (cm2 db) ∧
    MaxSlot ["LW", "LM"] db (lw db) ∧
    MaxSlot ["ST", "CF"] db (striker db) ∧
    MaxSlot ["RW", "RM"] db (rw db) ∧
    (striker stExample).map Player.Name = ["A"] :=
  ⟨slotQuery_zero_max _ db, slotQuery_zero_max _ db, slotQuery_zero_max _ db,
   slotQuery_zero_max _ db, slotQuery_zero_max _ db, slotQuery_zero_max _ db,
   slotQuery_zero_max _ db, slotQuery_zero_max _ db, slotQuery_zero_max _ db,
   by decide⟩

theorem slotQuery_offset_one (posSet : List String) (db : List Player)
    (h : 2 ≤ (slotCandidates posSet db).length) :
    ∃ a b rest,
      sortDescBy (fun p => p.Overall) (slotCandidates posSet db) = a :: b :: rest ∧
      slotQuery posSet 0 db = [a] ∧ slotQuery posSet 1 db = [b] ∧
      (∀ q ∈ slotCandidates posSet db, q.Overall ≤ a.Overall) ∧
      (∀ q ∈ b :: rest, q.Overall ≤ b.Overall) := by
  have hlen : 2 ≤ (sortDescBy (fun p : Player => p.Overall) (slotCandidates posSet db)).length := by
    rw [length_sortDescBy]; exact h
  cases hs : sortDescBy (fun p : Player => p.Overall) (slotCandidates posSet db) with
  | nil => rw [hs] at hlen; simp at hlen
  | cons a t =>
    cases t with
    | nil => rw [hs] at hlen; simp at hlen
    | cons b rest =>
      refine ⟨a, b, rest, rfl, ?_, ?_, sortDescBy_head_max hs, ?_⟩
      · unfold slotQuery; rw [hs]; rfl
      · unfold slotQuery; rw [hs]; rfl
      · have hsorted := sortDescBy_sorted (fun p : Player => p.Overall) (slotCandidates posSet db)
        rw [hs] at hsorted
        have htail : List.Sorted (fun x y : Player => y.Overall ≤ x.Overall) (b :: rest) :=
          (List.sorted_cons.mp hsorted).2
        intro q hq
        rcases List.mem_cons.mp hq with rfl | hmem
        · exact le_refl _
        · exact (List.sorted_cons.mp htail).1 q hmem

/-- C9: when at least two players are at position CB, the first CB slot holds
the top row and the second CB slot (OFFSET 1) holds the second row of the
descending-overall order — the highest and second-highest overall CBs — and
likewise the third CM slot selects the second row of the combined
CM/CDM/CAM candidate set rather than its maximum. -/
theorem cb2_cm3_select_second_row (db : List Player)
    (hcb : 2 ≤ (slotCandidates ["CB"] db).length)
    (hcm : 2 ≤ (slotCandidates ["CM", "CDM", "CAM"] db).length) :
    (∃ a b rest,
      sortDescBy (fun p => p.Overall) (slotCandidates ["CB"] db) = a :: b :: rest ∧
      cb1 db = [a] ∧ cb2 db = [b] ∧
      (∀ q ∈ slotCandidates ["CB"] db, q.Overall ≤ a.Overall) ∧
      (∀ q ∈ b :: rest, q.Overall ≤ b.Overall)) ∧
    (∃ a b rest,
      sortDescBy (fun p => p.Overall) (slotCandidates ["CM", "CDM", "CAM"] db) = a :: b :: rest ∧
      cm3 db = [b] ∧
      (∀ q ∈ slotCandidates ["CM", "CDM", "CAM"] db, q.Overall ≤ a.Overall) ∧
      (∀ q ∈ b :: rest, q.Overall ≤ b.Overall)) := by
  constructor
  · obtain ⟨a, b, rest, h1, h2, h3, h4, h5⟩ := slotQuery_offset_one ["CB"] db hcb
    exact ⟨a, b, rest, h1, h2, h3, h4, h5⟩
  · obtain ⟨a, b, rest, h1, _, h3, h4, h5⟩ :=
      slotQuery_offset_one ["CM", "CDM", "CAM"] db hcm
    exact ⟨a, b, rest, h1, h3, h4, h5⟩

def cmC : Player := ⟨"C", 25, "X", 88, 88, "C3", "CM"⟩

def cmD : Player := ⟨"D", 25, "X", 82, 82, "C4", "CDM"⟩

def offsetExample : List Player := [cbA, cbB, cmC, cmD]

/-- C9 witness: the theorem applied to a table with two CBs and two central
midfielders resolves the slots to the concrete first and second rows. -/
theorem cb2_cm3_select_second_row_witness :
    (2 ≤ (slotCandidates ["CB"] offsetExample).length ∧
      2 ≤ (slotCandidates ["CM", "CDM", "CAM"] offsetExample).length) ∧
    cb1 offsetExample = [cbA] ∧ cb2 offsetExample = [cbB] ∧ cm3 offsetExample = [cmD] := by
  obtain ⟨⟨a, b, rest, hs, hcb1, hcb2, _, _⟩, ⟨a2, b2, rest2, hs2, hcm3, _, _⟩⟩ :=
    cb2_cm3_select_second_row offsetExample (by decide) (by decide)
  have e1 : sortDescBy (fun p => p.Overall) (slotCandidates ["CB"] offsetExample) =
      [cbA, cbB] := by decide
  have e2 : sortDescBy (fun p => p.Overall)
      (slotCandidates ["CM", "CDM", "CAM"] offsetExample) = [cmC, cmD] := by decide
  rw [e1] at hs
  injection hs with h1 hs'
  injection hs' with h2 _
  rw [e2] at hs2
  injection hs2 with h3 hs2'
  injection hs2' with h4 _
  rw [← h1] at hcb1
  rw [← h2] at hcb2
  rw [← h4] at hcm3
  exact ⟨⟨by decide, by decide⟩, hcb1, hcb2, hcm3⟩

/-! ### C4: hidden gems (src/fifa_dashboard.py:378-384) -/

/-- The hidden-gems query:
`SELECT ..., (Potential - Overall) as Growth FROM players
 WHERE (Potential - Overall) >= 15 AND Age <= 24 ORDER BY Growth DESC LIMIT 20`. -/
def gems (db : List Player) : List Player :=
  (sortDescBy (fun p => p.Potential - p.Overall)
    (db.filter (fun p => decide (15 ≤ p.Potential - p.Overall) && decide (p.Age ≤ 24)))).take 20

/-- C4: the hiddenGems query never returns a row with growth below 15 or age
above 24, and its rows are sorted by growth = Potential − Overall descending. -/
theorem gems_spec (db : List Player) :
    (∀ r ∈ gems db, 15 ≤ r.Potential - r.Overall ∧ r.Age ≤ 24) ∧
    DescendingBy (fun p => p.Potential - p.Overall) (gems db) := by
  constructor
  · intro r hr
    have hr' : r ∈ db.filter
        (fun p => decide (15 ≤ p.Potential - p.Overall) && decide (p.Age ≤ 24)) :=
      mem_sortDescBy.mp (mem_of_mem_take' hr)
    have hcond := List.of_mem_filter hr'
    simp only [Bool.and_eq_true, decide_eq_true_eq] at hcond
    exact hcond
  · exact descendingBy_take (sortDescBy_sorted _ _) 20

/-! ### SQL numeric aggregates: AVG, MAX, ROUND -/

/-- SQL `AVG` over the values of a (non-empty) group, as an exact rational. -/
def avgQ (l : List ℤ) : ℚ :=
  (l.sum : ℚ) / (l.length : ℚ)

/-- SQL `MAX` over the values of a group (0 on an empty group, which the
grouped queries never produce). -/
def maxZ (l : List ℤ) : ℤ :=
  l.foldr max 0

/-- Rounding to the nearest integer, halves away from zero, as SQLite's
ROUND and python's round-half-away do. -/
def sround (q : ℚ) : ℤ :=
  if q < 0 then -⌊-q + 1 / 2⌋ else ⌊q + 1 / 2⌋

/-- SQL `ROUND(q, d)`: round to `d` decimal digits. -/
def roundTo (d : ℕ) (q : ℚ) : ℚ :=
  (sround (q * (10 : ℚ) ^ d) : ℚ) / (10 : ℚ) ^ d

theorem sround_mono {x y : ℚ} (h : x ≤ y) : sround x ≤ sround y := by
  unfold sround
  by_cases hx : x < 0 <;> by_cases hy : y < 0
  · rw [if_pos hx, if_pos hy]
    have : -y + 1 / 2 ≤ -x + 1 / 2 := by linarith
    exact neg_le_neg (Int.floor_le_floor this)
  · rw [if_pos hx, if_neg hy]
    have h1 : -⌊-x + 1 / 2⌋ ≤ 0 := by
      have : (0 : ℚ) ≤ -x + 1 / 2 := by linarith
      have := (Int.floor_nonneg).mpr this
      omega
    have h2 : (0 : ℤ) ≤ ⌊y + 1 / 2⌋ := by
      apply Int.floor_nonneg.mpr
      push_neg at hy
      linarith
    omega
  · exact absurd (lt_of_le_of_lt h hy) hx
  · rw [if_neg hx, if_neg hy]
    exact Int.floor_le_floor (by linarith)

theorem roundTo_mono (d : ℕ) {x y : ℚ} (h : x ≤ y) : roundTo d x ≤ roundTo d y := by
  unfold roundTo
  have hpow : (0 : ℚ) < (10 : ℚ) ^ d := pow_pos (by norm_num) d
  apply (div_le_div_iff_of_pos_right hpow).mpr
  exact_mod_cast sround_mono (mul_le_mul_of_nonneg_right h (le_of_lt hpow))

/-! ### C5: the Talent Index formula (src/fifa_dashboard.py:309-314) -/

/-- The pandas Talent Index computation:
`(AvgRating * 0.4 + AvgPotential * 0.3 + YoungTalents * 2 + WorldClass * 1.5).round(2)`. -/
def talentIndex (avgRating avgPotential : ℚ) (youngTalents worldClass : ℕ) : ℚ :=
  roundTo 2 (avgRating * 0.4 + avgPotential * 0.3 +
    (youngTalents : ℚ) * 2 + (worldClass : ℚ) * 1.5)

/-- C5: TalentIndex = round₂(0.4·AvgRating + 0.3·AvgPotential + 2·YoungTalents
+ 1.5·WorldClass) is monotonically non-decreasing in each of its four inputs
individually, holding the other three fixed. -/
theorem talentIndex_monotone (a a' p p' : ℚ) (y y' w w' : ℕ)
    (ha : a ≤ a') (hp : p ≤ p') (hy : y ≤ y') (hw : w ≤ w') :
    talentIndex a p y w ≤ talentIndex a' p y w ∧
    talentIndex a p y w ≤ talentIndex a p' y w ∧
    talentIndex a p y w ≤ talentIndex a p y' w ∧
    talentIndex a p y w ≤ talentIndex a p y w' := by
  have hy' : (y : ℚ) ≤ (y' : ℚ) := by exact_mod_cast hy
  have hw' : (w : ℚ) ≤ (w' : ℚ) := by exact_mod_cast hw
  refine ⟨roundTo_mono 2 ?_, roundTo_mono 2 ?_, roundTo_mono 2 ?_, roundTo_mono 2 ?_⟩ <;>
    nlinarith

/-- C5 witness: monotonicity applied at concrete inputs. -/
theorem talentIndex_monotone_witness :
    ((80 : ℚ) ≤ 85 ∧ (78 : ℚ) ≤ 82 ∧ (3 : ℕ) ≤ 5 ∧ (2 : ℕ) ≤ 4) ∧
    (talentIndex 80 78 3 2 ≤ talentIndex 85 78 3 2 ∧
     talentIndex 80 78 3 2 ≤ talentIndex 80 82 3 2 ∧
     talentIndex 80 78 3 2 ≤ talentIndex 80 78 5 2 ∧
     talentIndex 80 78 3 2 ≤ talentIndex 80 78 3 4) :=
  ⟨⟨by norm_num, by norm_num, by norm_num, by norm_num⟩,
   talentIndex_monotone 80 85 78 82 3 5 2 4
     (by norm_num) (by norm_num) (by norm_num) (by norm_num)⟩

/-! ### GROUP BY Club -/

/-- SQL `GROUP BY Club`: one output row per distinct club value among the
(already WHERE-filtered) input rows, built by `mk` from the club name and the
rows of that club. -/
def groupByClub {ρ : Type} (mk : String → List Player → ρ) (rows : List Player) : List ρ :=
  ((rows.map Player.Club).dedup).map (fun c => mk c (rows.filter (fun p => p.Club == c)))

theorem mem_groupByClub {ρ : Type} {mk : String → List Player → ρ} {rows : List Player}
    {r : ρ} (hr : r ∈ groupByClub mk rows) :
    ∃ c, (∃ p ∈ rows, p.Club = c) ∧ r = mk c (rows.filter (fun p => p.Club == c)) := by
  obtain ⟨c, hc, hmk⟩ := List.mem_map.mp hr
  have hc' : c ∈ rows.map Player.Club := List.mem_dedup.mp hc
  obtain ⟨p, hp, hpc⟩ := List.mem_map.mp hc'
  exact ⟨c, ⟨p, hp, hpc⟩, hmk.symm⟩

/-! ### C3: the club talent ranking (src/fifa_dashboard.py:289-315) -/

/-- A row of the club-talent table.  The first eight fields are the columns of
the SQL query at src/fifa_dashboard.py:289-305; `TalentIndex` is the column the
pandas step adds afterwards (0 until then). -/
structure ClubTalentRow where
  Club : String
  TotalPlayers : ℕ
  AvgRating : ℚ
  BestPlayer : ℤ
  AvgPotential : ℚ
  YoungTalents : ℕ
  WorldClass : ℕ
  YouthPotential : ℚ
  TalentIndex : ℚ
deriving DecidableEq, Repr

def mkClubTalentRow (c : String) (g : List Player) : ClubTalentRow :=
  { Club := c
    TotalPlayers := g.length
    AvgRating := roundTo 2 (avgQ (g.map Player.Overall))
    BestPlayer := maxZ (g.map Player.Overall)
    AvgPotential := roundTo 2 (avgQ (g.map Player.Potential))
    YoungTalents := g.countP (fun p => decide (p.Age ≤ 23))
    WorldClass := g.countP (fun p => decide (80 ≤ p.Overall))
    YouthPotential := roundTo 2 (avgQ (g.map (fun p => if p.Age ≤ 23 then p.Potential else 0)))
    TalentIndex := 0 }

/-- The SQL part of the club-talent pipeline:
`WHERE Club != '' AND Club IS NOT NULL AND Club != 'Hoffenheim' GROUP BY Club
 HAVING TotalPlayers >= 15 ORDER BY AvgRating DESC LIMIT 30`. -/
def club_talent_sql (db : List Player) : List ClubTalentRow :=
  (sortDescBy (fun r => r.AvgRating)
    ((groupByClub mkClubTalentRow
        (db.filter (fun p => decide (p.Club ≠ "") && decide (p.Club ≠ "Hoffenheim")))).filter
      (fun r => decide (15 ≤ r.TotalPlayers)))).take 30

/-- The pandas step at src/fifa_dashboard.py:309-314: add the TalentIndex
column. -/
def withTalentIndex (r : ClubTalentRow) : ClubTalentRow :=
  { r with TalentIndex := talentIndex r.AvgRating r.AvgPotential r.YoungTalents r.WorldClass }

/-- The full club-talent pipeline: SQL query, TalentIndex column, then
`sort_values('TalentIndex', ascending=False)` (src/fifa_dashboard.py:315). -/
def club_talent (db : List Player) : List ClubTalentRow :=
  sortDescBy (fun r => r.TalentIndex) ((club_talent_sql db).map withTalentIndex)

theorem mem_club_talent {db : List Player} {r : ClubTalentRow}
    (hr : r ∈ club_talent db) :
    ∃ r' ∈ club_talent_sql db, r = withTalentIndex r' := by
  have : r ∈ (club_talent_sql db).map withTalentIndex := mem_sortDescBy.mp hr
  obtain ⟨r', hr', heq⟩ := List.mem_map.mp this
  exact ⟨r', hr', heq.symm⟩

/-- C3: every row of the club talent ranking has at least 15 qualifying
players; every row comes from the top-30-by-AvgRating candidate set computed
before the TalentIndex sort (so a club outside that set never appears, and
there are at most 30 rows); and the result is sorted by TalentIndex
descending. -/
theorem club_talent_spec (db : List Player) :
    (∀ r ∈ club_talent db, 15 ≤ r.TotalPlayers) ∧
    (∀ r ∈ club_talent db, r.Club ∈ (club_talent_sql db).map ClubTalentRow.Club) ∧
    (club_talent db).length ≤ 30 ∧
    DescendingBy (fun r => r.TalentIndex) (club_talent db) := by
  refine ⟨?_, ?_, ?_, sortDescBy_sorted _ _⟩
  · intro r hr
    obtain ⟨r', hr', heq⟩ := mem_club_talent hr
    have h15 : r' ∈ (groupByClub mkClubTalentRow
        (db.filter (fun p => decide (p.Club ≠ "") && decide (p.Club ≠ "Hoffenheim")))).filter
        (fun r => decide (15 ≤ r.TotalPlayers)) :=
      mem_sortDescBy.mp (mem_of_mem_take' hr')
    have := List.of_mem_filter h15
    simp only [decide_eq_true_eq] at this
    have hTP : r.TotalPlayers = r'.TotalPlayers := by rw [heq]; rfl
    rw [hTP]
    exact this
  · intro r hr
    obtain ⟨r', hr', heq⟩ := mem_club_talent hr
    have hClub : r.Club = r'.Club := by rw [heq]; rfl
    rw [hClub]
    exact List.mem_map.mpr ⟨r', hr', rfl⟩
  · have h1 : (club_talent db).length = ((club_talent_sql db).map withTalentIndex).length :=
      length_sortDescBy _ _
    rw [h1, List.length_map]
    unfold club_talent_sql
    exact List.length_take_le 30 _

/-! ### C8: per-club aggregations that hard-code `Club != 'Hoffenheim'` -/

/-- A row of the Top 15 Clubs overview chart (src/fifa_dashboard.py:167-173). -/
structure ClubCountRow where
  Club : String
  count : ℕ
  avg_rating : ℚ
deriving DecidableEq, Repr

def mkClubCountRow (c : String) (g : List Player) : ClubCountRow :=
  { Club := c, count := g.length, avg_rating := roundTo 1 (avgQ (g.map Player.Overall)) }

/-- The Top 15 Clubs query:
`SELECT Club, COUNT(*), ROUND(AVG(Overall),1) FROM players
 {filter_clause} AND Club != 'Hoffenheim' AND Club != ''
 GROUP BY Club ORDER BY count DESC LIMIT 15`. -/
def top15_clubs (f : FilterSelection) (db : List Player) : List ClubCountRow :=
  (sortDescBy (fun r => r.count)
    (groupByClub mkClubCountRow
      (db.filter (fun p =>
        filter_clause f p && decide (p.Club ≠ "Hoffenheim") && decide (p.Club ≠ ""))))).take 15

/-- A row of the youth-academy (U23) chart (src/fifa_dashboard.py:349-362). -/
structure YouthClubRow where
  Club : String
  YoungPlayers : ℕ
  AvgRating : ℚ
  AvgPotential : ℚ
  BestPotential : ℤ
deriving DecidableEq, Repr

def mkYouthClubRow (c : String) (g : List Player) : YouthClubRow :=
  { Club := c
    YoungPlayers := g.length
    AvgRating := roundTo 1 (avgQ (g.map Player.Overall))
    AvgPotential := roundTo 1 (avgQ (g.map Player.Potential))
    BestPotential := maxZ (g.map Player.Potential) }

/-- The youth-academy query:
`... FROM players WHERE Age <= 23 AND Club != '' AND Club != 'Hoffenheim'
 GROUP BY Club HAVING YoungPlayers >= 5 ORDER BY AvgPotential DESC LIMIT 15`. -/
def youth_clubs (db : List Player) : List YouthClubRow :=
  (sortDescBy (fun r => r.AvgPotential)
    ((groupByClub mkYouthClubRow
        (db.filter (fun p =>
          decide (p.Age ≤ 23) && decide (p.Club ≠ "") && decide (p.Club ≠ "Hoffenheim")))).filter
      (fun r => decide (5 ≤ r.YoungPlayers)))).take 15

theorem club_of_groupByClub_ne {ρ : Type} {mk : String → List Player → ρ}
    (clubOf : ρ → String) (hmk : ∀ c g, clubOf (mk c g) = c)
    {cond : Player → Bool} {db : List Player} {r : ρ}
    (hr : r ∈ groupByClub mk (db.filter cond))
    (hcond : ∀ p, cond p = true → p.Club ≠ "Hoffenheim") :
    clubOf r ≠ "Hoffenheim" := by
  obtain ⟨c, ⟨p, hp, hpc⟩, heq⟩ := mem_groupByClub hr
  have hkeep := List.of_mem_filter hp
  rw [heq, hmk]
  rw [← hpc]
  exact hcond p hkeep

/-- C8: each of the three per-club aggregations — the Top 15 Clubs chart, the
club talent ranking, and the youth-academy (U23) aggregation — never returns a
row for club "Hoffenheim", for every filter selection and database state. -/
theorem hoffenheim_excluded (f : FilterSelection) (db : List Player) :
    (∀ r ∈ top15_clubs f db, r.Club ≠ "Hoffenheim") ∧
    (∀ r ∈ club_talent db, r.Club ≠ "Hoffenheim") ∧
    (∀ r ∈ youth_clubs db, r.Club ≠ "Hoffenheim") := by
  refine ⟨?_, ?_, ?_⟩
  · intro r hr
    have hg : r ∈ groupByClub mkClubCountRow
        (db.filter (fun p =>
          filter_clause f p && decide (p.Club ≠ "Hoffenheim") && decide (p.Club ≠ ""))) :=
      mem_sortDescBy.mp (mem_of_mem_take' hr)
    refine club_of_groupByClub_ne ClubCountRow.Club (fun _ _ => rfl) hg ?_
    intro p hp
    simp only [Bool.and_eq_true, decide_eq_true_eq] at hp
    exact hp.1.2
  · intro r hr
    obtain ⟨r', hr', heq⟩ := mem_club_talent hr
    have hg : r' ∈ groupByClub mkClubTalentRow
        (db.filter (fun p => decide (p.Club ≠ "") && decide (p.Club ≠ "Hoffenheim"))) :=
      List.mem_of_mem_filter (mem_sortDescBy.mp (mem_of_mem_take' hr'))
    have hne : r'.Club ≠ "Hoffenheim" := by
      refine club_of_groupByClub_ne ClubTalentRow.Club (fun _ _ => rfl) hg ?_
      intro p hp
      simp only [Bool.and_eq_true, decide_eq_true_eq] at hp
      exact hp.2
    have : r.Club = r'.Club := by rw [heq]; rfl
    rw [this]
    exact hne
  · intro r hr
    have hg : r ∈ groupByClub mkYouthClubRow
        (db.filter (fun p =>
          decide (p.Age ≤ 23) && decide (p.Club ≠ "") && decide (p.Club ≠ "Hoffenheim"))) :=
      List.mem_of_mem_filter (mem_sortDescBy.mp (mem_of_mem_take' hr))
    refine club_of_groupByClub_ne YouthClubRow.Club (fun _ _ => rfl) hg ?_
    intro p hp
    simp only [Bool.and_eq_true, decide_eq_true_eq] at hp
    exact hp.2

/-! ### C6 and C10: the player search (src/fifa_dashboard.py:497-521)

The search interpolates the term into `WHERE {column} LIKE '%{term}%'`.
SQLite's LIKE is case-insensitive for the ASCII letters A-Z and treats `%`
as any-sequence and `_` as any-character; we model it by folding both pattern
and value to ASCII lowercase and running the standard wildcard matcher. -/

/-- The ASCII uppercase-to-lowercase table. -/
def upperLowerTable : List (Char × Char) :=
  [('A', 'a'), ('B', 'b'), ('C', 'c'), ('D', 'd'), ('E', 'e'), ('F', 'f'),
   ('G', 'g'), ('H', 'h'), ('I', 'i'), ('J', 'j'), ('K', 'k'), ('L', 'l'),
   ('M', 'm'), ('N', 'n'), ('O', 'o'), ('P', 'p'), ('Q', 'q'), ('R', 'r'),
   ('S', 's'), ('T', 't'), ('U', 'u'), ('V', 'v'), ('W', 'w'), ('X', 'x'),
   ('Y', 'y'), ('Z', 'z')]

/-- ASCII lowercase folding of one character (A-Z map to a-z, everything else
is unchanged), the folding SQLite's default LIKE applies to both operands. -/
def lowerChar (c : Char) : Char :=
  match upperLowerTable.find? (fun cc => cc.1 == c) with
  | some cc => cc.2
  | none => c

def lowerCL (s : List Char) : List Char :=
  s.map lowerChar

/-- All non-empty tails of a string, plus the empty one: the candidate
remainders a `%` wildcard can leave. -/
def suffixesCL : List Char → List (List Char)
  | [] => [[]]
  | c :: t => (c :: t) :: suffixesCL t

def startsWithCL : List Char → List Char → Bool
  | [], _ => true
  | _ :: _, [] => false
  | a :: ts, b :: bs => a == b && startsWithCL ts bs

/-- Substring test: some suffix of `s` starts with `t`. -/
def containsCL (t s : List Char) : Bool :=
  (suffixesCL s).any (fun s2 => startsWithCL t s2)

/-- The SQL LIKE wildcard matcher over already-folded characters: `%` matches
any sequence, `_` any single character, anything else itself. -/
def likeMatch : List Char → List Char → Bool
  | [], s => s.isEmpty
  | c :: ps, s =>
    if c = '%' then (suffixesCL s).any (fun s2 => likeMatch ps s2)
    else
      match s with
      | [] => false
      | b :: s2 => (if c = '_' then true else c == b) && likeMatch ps s2

/-- A term with no LIKE wildcard characters. -/
def isLiteralTerm (t : List Char) : Bool :=
  t.all (fun c => !(c == '%') && !(c == '_'))

/-- SQLite `value LIKE pattern` with default (ASCII case-insensitive)
semantics. -/
def sqlLike (pat s : List Char) : Bool :=
  likeMatch (lowerCL pat) (lowerCL s)

/-- The pattern `'%{term}%'` interpolated at src/fifa_dashboard.py:508. -/
def likePattern (term : String) : List Char :=
  '%' :: (term.data ++ ['%'])

/-- The radio selector for the search column ("Name", "Club", "Nationality"). -/
inductive SearchField where
  | name
  | club
  | nationality
deriving DecidableEq, Repr

def fieldVal : SearchField → Player → String
  | .name, p => p.Name
  | .club, p => p.Club
  | .nationality, p => p.Nationality

/-- The search query:
`SELECT ... FROM players WHERE {column} LIKE '%{term}%'
 ORDER BY Overall DESC LIMIT 100`. -/
def search (term : String) (fld : SearchField) (db : List Player) : List Player :=
  (sortDescBy (fun p => p.Overall)
    (db.filter (fun p => sqlLike (likePattern term) (fieldVal fld p).data))).take 100

theorem lowerChar_ne_wild {c : Char} (h1 : ¬ c = '%') (h2 : ¬ c = '_') :
    ¬ lowerChar c = '%' ∧ ¬ lowerChar c = '_' := by
  unfold lowerChar
  cases hf : upperLowerTable.find? (fun cc => cc.1 == c) with
  | none => exact ⟨h1, h2⟩
  | some cc =>
    have hmem : cc ∈ upperLowerTable := List.mem_of_find?_eq_some hf
    have hsnd : ∀ d ∈ upperLowerTable, ¬ d.2 = '%' ∧ ¬ d.2 = '_' := by decide
    exact hsnd cc hmem

theorem isLiteralTerm_lowerCL {t : List Char} (h : isLiteralTerm t = true) :
    isLiteralTerm (lowerCL t) = true := by
  unfold isLiteralTerm lowerCL at *
  rw [List.all_map]
  simp only [List.all_eq_true, Function.comp, Bool.and_eq_true, Bool.not_eq_true',
    beq_eq_false_iff_ne, ne_eq] at *
  intro c hc
  exact lowerChar_ne_wild (h c hc).1 (h c hc).2

theorem nil_mem_suffixesCL (s : List Char) : [] ∈ suffixesCL s := by
  induction s with
  | nil => exact List.mem_singleton_self []
  | cons c t ih => exact List.mem_cons_of_mem _ ih

theorem likeMatch_percent_nil (s : List Char) : likeMatch ['%'] s = true := by
  have h1 : likeMatch ['%'] s = (suffixesCL s).any (fun s2 => likeMatch [] s2) := by
    simp only [likeMatch, eq_self_iff_true, if_true]
  rw [h1, List.any_eq_true]
  exact ⟨[], nil_mem_suffixesCL s, by decide⟩

theorem likeMatch_append_percent {t : List Char} (h : isLiteralTerm t = true) :
    ∀ s, likeMatch (t ++ ['%']) s = startsWithCL t s := by
  induction t with
  | nil =>
    intro s
    rw [List.nil_append, likeMatch_percent_nil]
    rfl
  | cons c ts ih =>
    intro s
    simp only [isLiteralTerm, List.all_cons, Bool.and_eq_true, Bool.not_eq_true',
      beq_eq_false_iff_ne, ne_eq] at h
    obtain ⟨⟨hc1, hc2⟩, hts⟩ := h
    have ihs := ih (by simpa [isLiteralTerm] using hts)
    cases s with
    | nil =>
      simp only [List.cons_append, likeMatch, if_neg hc1]
      rfl
    | cons b s2 =>
      simp only [List.cons_append, likeMatch, if_neg hc1, if_neg hc2, startsWithCL]
      exact congrArg (fun x => (c == b) && x) (ihs s2)

theorem likeMatch_literal_contains {t : List Char} (h : isLiteralTerm t = true)
    (s : List Char) : likeMatch ('%' :: (t ++ ['%'])) s = containsCL t s := by
  have h1 : likeMatch ('%' :: (t ++ ['%'])) s =
      (suffixesCL s).any (fun s2 => likeMatch (t ++ ['%']) s2) := by
    simp only [likeMatch, eq_self_iff_true, if_true]
  rw [h1, containsCL]
  congr 1
  funext s2
  exact likeMatch_append_percent h s2

theorem startsWithCL_iff (t : List Char) :
    ∀ s, startsWithCL t s = true ↔ ∃ suf, s = t ++ suf := by
  induction t with
  | nil => intro s; simp [startsWithCL]
  | cons a ts ih =>
    intro s
    cases s with
    | nil =>
      simp only [startsWithCL, List.cons_append]
      constructor
      · intro hfalse; cases hfalse
      · rintro ⟨suf, hsuf⟩; cases hsuf
    | cons b bs =>
      simp only [startsWithCL, Bool.and_eq_true, beq_iff_eq, ih bs, List.cons_append]
      constructor
      · rintro ⟨rfl, suf, rfl⟩; exact ⟨suf, rfl⟩
      · rintro ⟨suf, heq⟩
        injection heq with h1 h2
        exact ⟨h1.symm ▸ rfl, suf, h2⟩

theorem mem_suffixesCL {s2 : List Char} : ∀ {s}, s2 ∈ suffixesCL s ↔ ∃ pre, s = pre ++ s2 := by
  intro s
  induction s with
  | nil =>
    simp only [suffixesCL, List.mem_singleton]
    constructor
    · rintro rfl; exact ⟨[], rfl⟩
    · rintro ⟨pre, hpre⟩
      exact (List.append_eq_nil.mp hpre.symm).2
  | cons c t ih =>
    simp only [suffixesCL, List.mem_cons, ih]
    constructor
    · rintro (rfl | ⟨pre, rfl⟩)
      · exact ⟨[], rfl⟩
      · exact ⟨c :: pre, rfl⟩
    · rintro ⟨pre, hpre⟩
      cases pre with
      | nil => left; exact hpre.symm
      | cons x xs =>
        right
        injection hpre with h1 h2
        exact ⟨xs, h2⟩

/-- `containsCL` is exactly substring containment. -/
theorem containsCL_iff {t s : List Char} :
    containsCL t s = true ↔ ∃ pre suf, s = pre ++ t ++ suf := by
  unfold containsCL
  rw [List.any_eq_true]
  constructor
  · rintro ⟨s2, hmem, hsw⟩
    obtain ⟨pre, rfl⟩ := mem_suffixesCL.mp hmem
    obtain ⟨suf, rfl⟩ := (startsWithCL_iff t s2).mp hsw
    exact ⟨pre, suf, by rw [List.append_assoc]⟩
  · rintro ⟨pre, suf, rfl⟩
    refine ⟨t ++ suf, mem_suffixesCL.mpr ⟨pre, by rw [List.append_assoc]⟩, ?_⟩
    exact (startsWithCL_iff t (t ++ suf)).mpr ⟨suf, rfl⟩

theorem lowerCL_likePattern (term : String) :
    lowerCL (likePattern term) = '%' :: (lowerCL term.data ++ ['%']) := by
  have h1 : lowerChar '%' = '%' := by decide
  simp [likePattern, lowerCL, h1]

/-- C6 (amended): for every non-empty search term containing no LIKE wildcard
character (`%` or `_`) and every search field, the search returns only rows
whose value in the selected field contains the term as a substring up to
SQLite's ASCII case folding, returns at most 100 rows, and returns them
sorted by Overall descending. -/
theorem search_spec (term : String) (fld : SearchField) (db : List Player)
    (hne : term ≠ "") (hlit : isLiteralTerm term.data = true) :
    (∀ p ∈ search term fld db, ∃ pre suf,
        lowerCL (fieldVal fld p).data = pre ++ lowerCL term.data ++ suf) ∧
    (search term fld db).length ≤ 100 ∧
    DescendingBy (fun p => p.Overall) (search term fld db) := by
  refine ⟨?_, List.length_take_le 100 _, descendingBy_take (sortDescBy_sorted _ _) 100⟩
  intro p hp
  have hp' : p ∈ db.filter (fun p => sqlLike (likePattern term) (fieldVal fld p).data) :=
    mem_sortDescBy.mp (mem_of_mem_take' hp)
  have hcond := List.of_mem_filter hp'
  unfold sqlLike at hcond
  rw [lowerCL_likePattern term,
    likeMatch_literal_contains (isLiteralTerm_lowerCL hlit)] at hcond
  exact containsCL_iff.mp hcond

def pREAL : Player := ⟨"R. Player", 25, "Spain", 88, 90, "REAL", "ST"⟩

/-- C6 counterexample: with term "real" on field Club, a row whose club is
"REAL" is returned (SQLite LIKE is ASCII case-insensitive), yet "real" is not
a substring of "REAL" — refuting the claim that only rows whose field
contains the term as a substring are returned. -/
theorem search_substring_counterexample :
    pREAL ∈ search "real" SearchField.club [pREAL] ∧
    ¬ ∃ pre suf, (fieldVal SearchField.club pREAL).data = pre ++ "real".data ++ suf := by
  constructor
  · decide
  · rintro ⟨pre, suf, hps⟩
    have hcontains : containsCL "real".data (fieldVal SearchField.club pREAL).data = true :=
      containsCL_iff.mpr ⟨pre, suf, hps⟩
    exact absurd hcontains (by decide)

def realMadridPlayer : Player := ⟨"Madridista", 26, "Spain", 85, 88, "Real Madrid", "CM"⟩

/-- C6 witness: the amended theorem applied at a concrete term, field and
table. -/
theorem search_spec_witness :
    ("real" ≠ "" ∧ isLiteralTerm "real".data = true) ∧
    (search "real" SearchField.club [realMadridPlayer]).length ≤ 100 :=
  ⟨⟨by decide, by decide⟩,
   (search_spec "real" SearchField.club [realMadridPlayer] (by decide) (by decide)).2.1⟩

/-- What the search block can render. -/
inductive SearchPanel where
  | foundBanner (n : ℕ)
  | resultsTable (rows : List Player)
  | noMatchWarning
deriving DecidableEq, Repr

structure SearchRender where
  issuedQuery : Bool
  panels : List SearchPanel
deriving DecidableEq, Repr

/-- The search block at src/fifa_dashboard.py:497-521: `if search_term:` skips
the whole block when the term is the empty string (falsy in python); otherwise
the query runs and either a found-banner plus result table (when rows matched)
or a no-match warning is rendered. -/
def search_block (term : String) (fld : SearchField) (db : List Player) : SearchRender :=
  if term = "" then ⟨false, []⟩
  else if 0 < (search term fld db).length then
    ⟨true, [SearchPanel.foundBanner (search term fld db).length,
            SearchPanel.resultsTable (search term fld db)]⟩
  else ⟨true, [SearchPanel.noMatchWarning]⟩

/-- C10: on the empty search term no search query is issued and no result
table or warning is rendered; for a non-empty term the query is issued and
either the result table (with its banner) or the no-match warning appears. -/
theorem search_block_empty_term (term : String) (fld : SearchField) (db : List Player) :
    (term = "" → search_block term fld db = ⟨false, []⟩) ∧
    (term ≠ "" → (search_block term fld db).issuedQuery = true ∧
      ((search_block term fld db).panels =
          [SearchPanel.foundBanner (search term fld db).length,
           SearchPanel.resultsTable (search term fld db)] ∨
        (search_block term fld db).panels = [SearchPanel.noMatchWarning])) := by
  constructor
  · intro h
    simp [search_block, h]
  · intro h
    by_cases hr : 0 < (search term fld db).length
    · simp [search_block, h, hr]
    · simp [search_block, h, hr]

/-- C10 witness: the theorem applied at the empty term and at a concrete
non-empty term. -/
theorem search_block_empty_term_witness :
    search_block "" SearchField.club [pREAL] = ⟨false, []⟩ ∧
    (search_block "zzz" SearchField.club [pREAL]).issuedQuery = true :=
  ⟨(search_block_empty_term "" SearchField.club [pREAL]).1 rfl,
   ((search_block_empty_term "zzz" SearchField.club [pREAL]).2 (by decide)).1⟩

/-! ### C7: error containment (src/fifa_dashboard.py:78-106, 113-180, 199-282,
284-419, 422-489, 491-561)

Each widget of the page is driven by one query that either succeeds with a
renderable panel or raises.  The script wraps exactly three regions in
try/except: the five KPI metrics (lines 78-106), the Best XI tab (203-282) and
the club-analysis section (287-419).  Inside such a block the widgets render
in order until the first failing query, whose exception is caught and shown as
one inline error panel, skipping the rest of the block only.  Queries outside
any try (the Overview tab, the Top Players tab, the skill-analysis section and
the search/deep-dive section) propagate their exception and abort the rest of
the script run. -/

inductive RPanel where
  | widget (tag : String)
  | errorBox (msg : String)
deriving DecidableEq, Repr

/-- The outcome of one query-driven widget: a rendered panel or an exception. -/
abbrev QueryResult := Except String RPanel

def isOkQ : QueryResult → Bool
  | Except.ok _ => true
  | Except.error _ => false

/-- Rendering inside one try/except block. -/
def tryBlock : List QueryResult → List RPanel
  | [] => []
  | Except.ok p :: rest => p :: tryBlock rest
  | Except.error e :: _ => [RPanel.errorBox e]

/-- Rendering with no try/except: the first failure aborts. -/
def seqBlock : List QueryResult → Except String (List RPanel)
  | [] => Except.ok []
  | Except.ok p :: rest => (seqBlock rest).map (fun l => p :: l)
  | Except.error e :: _ => Except.error e

/-- The query outcomes of one script run, by page region, in page order. -/
structure RunInputs where
  kpi : List QueryResult
  overview : List QueryResult
  topPlayers : List QueryResult
  bestXI : List QueryResult
  clubAnalysis : List QueryResult
  skills : List QueryResult
  searchAndDive : List QueryResult
deriving Repr

/-- One full script run: the rendered panels and, when an uncaught exception
ended the run early, its error. -/
def renderScript (i : RunInputs) : List RPanel × Option String :=
  let kpiPanels := tryBlock i.kpi
  match seqBlock i.overview with
  | Except.error e => (kpiPanels, some e)
  | Except.ok ovPanels =>
    match seqBlock i.topPlayers with
    | Except.error e => (kpiPanels ++ ovPanels, some e)
    | Except.ok tpPanels =>
      let bxPanels := tryBlock i.bestXI
      let caPanels := tryBlock i.clubAnalysis
      match seqBlock i.skills with
      | Except.error e =>
        (kpiPanels ++ ovPanels ++ tpPanels ++ bxPanels ++ caPanels, some e)
      | Except.ok skPanels =>
        match seqBlock i.searchAndDive with
        | Except.error e =>
          (kpiPanels ++ ovPanels ++ tpPanels ++ bxPanels ++ caPanels ++ skPanels, some e)
        | Except.ok sdPanels =>
          (kpiPanels ++ ovPanels ++ tpPanels ++ bxPanels ++ caPanels ++ skPanels ++ sdPanels,
            none)

def okPanels (qs : List QueryResult) : List RPanel :=
  qs.filterMap (fun q => match q with | Except.ok p => some p | Except.error _ => none)

theorem seqBlock_all_ok {qs : List QueryResult} (h : qs.all isOkQ = true) :
    seqBlock qs = Except.ok (okPanels qs) := by
  induction qs with
  | nil => rfl
  | cons q rest ih =>
    rw [List.all_cons, Bool.and_eq_true] at h
    cases q with
    | ok p =>
      have := ih h.2
      simp [seqBlock, okPanels, this, Except.map]
    | error e => exact absurd h.1 (by simp [isOkQ])

/-- C7 (amended): the failure-containment granularity is the three try/except
blocks.  Whatever queries fail among the KPI block, the Best XI tab and the
club-analysis section, the script run completes without an uncaught error and
every other region still renders all its panels (a failing try block
contributes its partial prefix plus one inline error panel), provided the
regions outside any try/except (Overview, Top Players, skill analysis,
search/deep-dive) succeed. -/
theorem error_containment (i : RunInputs)
    (hov : i.overview.all isOkQ = true) (htp : i.topPlayers.all isOkQ = true)
    (hsk : i.skills.all isOkQ = true) (hsd : i.searchAndDive.all isOkQ = true) :
    (renderScript i).2 = none ∧
    (renderScript i).1 = tryBlock i.kpi ++ okPanels i.overview ++ okPanels i.topPlayers ++
      tryBlock i.bestXI ++ tryBlock i.clubAnalysis ++ okPanels i.skills ++
      okPanels i.searchAndDive := by
  unfold renderScript
  rw [seqBlock_all_ok hov, seqBlock_all_ok htp, seqBlock_all_ok hsk, seqBlock_all_ok hsd]
  exact ⟨rfl, rfl⟩

/-- A run in which only the first KPI metric query (the player count) fails. -/
def kpiFailRun : RunInputs :=
  { kpi := [Except.error "total players query failed",
            Except.ok (RPanel.widget "avg rating"), Except.ok (RPanel.widget "avg age"),
            Except.ok (RPanel.widget "top player"), Except.ok (RPanel.widget "clubs")]
    overview := [Except.ok (RPanel.widget "rating dist"),
                 Except.ok (RPanel.widget "nationalities"),
                 Except.ok (RPanel.widget "age dist"), Except.ok (RPanel.widget "top clubs")]
    topPlayers := [Except.ok (RPanel.widget "top 50")]
    bestXI := [Except.ok (RPanel.widget "best xi")]
    clubAnalysis := [Except.ok (RPanel.widget "talent index")]
    skills := [Except.ok (RPanel.widget "skill analysis")]
    searchAndDive := [Except.ok (RPanel.widget "deep dive")] }

/-- A run in which only the Best XI tab query fails (inside its try/except). -/
def xiFailRun : RunInputs :=
  { kpi := [Except.ok (RPanel.widget "total players")]
    overview := [Except.ok (RPanel.widget "rating dist")]
    topPlayers := [Except.ok (RPanel.widget "top 50")]
    bestXI := [Except.error "best xi query failed"]
    clubAnalysis := [Except.ok (RPanel.widget "talent index")]
    skills := [Except.ok (RPanel.widget "skill analysis")]
    searchAndDive := [Except.ok (RPanel.widget "deep dive")] }

/-- C7 witness: the containment theorem applied to a run whose only failure
is inside the Best XI try/except block; the script run still completes. -/
theorem error_containment_witness :
    (xiFailRun.overview.all isOkQ = true ∧ xiFailRun.topPlayers.all isOkQ = true ∧
      xiFailRun.skills.all isOkQ = true ∧ xiFailRun.searchAndDive.all isOkQ = true) ∧
    (renderScript xiFailRun).2 = none :=
  ⟨⟨by decide, by decide, by decide, by decide⟩,
   (error_containment xiFailRun (by decide) (by decide) (by decide) (by decide)).1⟩

/-- C7 counterexample: in a run where only the first KPI metric query fails,
the other four KPI metrics are not rendered — the single try/except around all
five metrics skips them — refuting the claim that failures are caught per
metric and every other KPI metric still renders. -/
theorem kpi_failure_not_per_metric :
    RPanel.widget "avg rating" ∉ (renderScript kpiFailRun).1 := by decide

end FifaDashboard
